import Mathlib

/-!
Verification of the presence discovery-poll-broadcast pipeline of the
spotify-graph repository, via a shallow embedding of the Python sources.

Embedded modules:
* `src/presence/discover_active_users.py` (Discovery Service)
* `src/presence/fetch_presence.py`        (Presence Fetcher)
* `src/presence/get_network.py`           (Presence Store read path)
* `src/websocket/broadcast.py`            (Change Notifier + Broadcaster)
* `src/common/dynamodb_utils.py`          (store helpers; `ClientError` on a
  query/scan is swallowed and yields `[]`, a conditional-check failure on a
  write yields `false`)

Conventions: machine time is `Nat` seconds; DynamoDB tables are association
lists keyed by their partition key; `dict.get(k)` on an optional attribute is
an `Option` field, with Python truthiness of a string value embedded by
`truthy`; key attributes of a table are total fields (every stored item has
its key attributes, so direct subscripting never fails on them).
-/

namespace SpotifyGraph

/-- A row of `USERS_TABLE`: key `userId`; `visibility` and the token fields are
ordinary attributes that may be absent, `lastLogin` is the recency-index sort
attribute, `tokenExpiresAt` is read with default 0. -/
structure SUser where
  userId : String
  spotifyId : String
  visibility : Option String
  lastLogin : Nat
  spotifyAccessToken : Option String
  spotifyRefreshToken : Option String
  tokenExpiresAt : Nat
deriving DecidableEq

/-- A row of `FRIENDS_TABLE`: a directed edge keyed by `(userId, friendId)`. -/
structure FriendEdge where
  userId : String
  friendId : String
deriving DecidableEq

/-- A row of `SHARED_QUEUES_TABLE`; discovery only reads `ownerId` via `.get`. -/
structure SharedQueueRow where
  ownerId : Option String
deriving DecidableEq

/-- A row of `QUEUE_MEMBERS_TABLE`; discovery only reads `userId` via `.get`. -/
structure QueueMemberRow where
  userId : Option String
deriving DecidableEq

/-- Python truthiness of an optional string: present and non-empty. -/
def truthy : Option String → Bool
  | none => false
  | some s => s != ""

/-- `get_item(USERS_TABLE, userId)` / dict lookup keyed by `userId`. -/
def lookupUser (users : List SUser) (uid : String) : Option SUser :=
  users.find? (fun u => u.userId == uid)

/-! ## Discovery Service (`discover_active_users.py`) -/

/-- The tables read by a discovery run. -/
structure DiscoveryDB where
  users : List SUser
  sharedQueues : List SharedQueueRow
  queueMembers : List QueueMemberRow
  friends : List FriendEdge
deriving DecidableEq

/-- `cutoff_time = int(time.time()) - 7*24*60*60` (line 47). -/
def recencyCutoff (now : Nat) : Nat := now - 7 * 24 * 60 * 60

/-- One `query_items` call on `RecentActivityIndex` for a fixed visibility
value (lines 50-58): items with that exact `visibility` attribute and
`lastLogin > cutoff`.  `query_items` swallows `ClientError` and returns `[]`
(`dynamodb_utils.py` lines 156-172), embedded by the `readFails` flag. -/
def queryRecentByVisibility (users : List SUser) (vis : String) (now : Nat)
    (readFails : Bool) : List SUser :=
  if readFails then []
  else users.filter
    (fun u => u.visibility == some vis && decide (recencyCutoff now < u.lastLogin))

/-- `recent_users` after the loop over `SHAREABLE_VISIBILITIES =
['public', 'friends']` (lines 49-58). -/
def recent_users (users : List SUser) (now : Nat) (readFails : Bool) : List SUser :=
  queryRecentByVisibility users "public" now readFails
    ++ queryRecentByVisibility users "friends" now readFails

/-- `user_shareable` (lines 62-63): `user and user.get('visibility', 'friends')
!= 'private'`. -/
def user_shareable (user : Option SUser) : Bool :=
  match user with
  | none => false
  | some u => u.visibility.getD "friends" != "private"

/-- Queue owners collected from the `SHARED_QUEUES_TABLE` scan (lines 68-72). -/
def sessionOwnerIds (queues : List SharedQueueRow) : Finset String :=
  (queues.filterMap (fun q => if truthy q.ownerId then q.ownerId else none)).toFinset

/-- Queue members collected from the `QUEUE_MEMBERS_TABLE` scan (lines 74-78). -/
def sessionMemberIds (members : List QueueMemberRow) : Finset String :=
  (members.filterMap (fun m => if truthy m.userId then m.userId else none)).toFinset

/-- Both endpoints of every friend edge (lines 81-86); key attributes are
present on every item, so the `.get` truthiness check is non-emptiness. -/
def friendEndpointIds (edges : List FriendEdge) : Finset String :=
  ((edges.filter (fun e => e.userId != "")).map (fun e => e.userId)).toFinset
    ∪ ((edges.filter (fun e => e.friendId != "")).map (fun e => e.friendId)).toFinset

/-- `active_user_ids` after the three gathering phases (lines 65-86). -/
def active_user_ids (db : DiscoveryDB) (now : Nat) (readFails : Bool) : Finset String :=
  ((recent_users db.users now readFails).map (fun u => u.userId)).toFinset
    ∪ sessionOwnerIds db.sharedQueues
    ∪ sessionMemberIds db.queueMembers
    ∪ friendEndpointIds db.friends

/-- `user_map.get(uid)` after hydration (lines 60, 88-95): the map is seeded
from `recent_users` and missing ids are hydrated by `batch_get_items` on
`USERS_TABLE`. -/
def discoveryLookup (db : DiscoveryDB) (now : Nat) (readFails : Bool)
    (uid : String) : Option SUser :=
  ((recent_users db.users now readFails).find? (fun u => u.userId == uid)).orElse
    (fun _ => lookupUser db.users uid)

/-- The ids surviving the shareability filter (lines 97-104). -/
def enqueuedUserIds (db : DiscoveryDB) (now : Nat) (readFails : Bool) : Finset String :=
  (active_user_ids db now readFails).filter
    (fun uid => user_shareable (discoveryLookup db now readFails uid) = true)

/-- The `(userId, spotifyId)` message bodies sent to SQS, one per surviving
candidate (lines 112-131). -/
def workItems (db : DiscoveryDB) (now : Nat) (readFails : Bool) :
    Finset (String × String) :=
  (enqueuedUserIds db now readFails).image
    (fun uid => (uid, ((discoveryLookup db now readFails uid).map
      (fun u => u.spotifyId)).getD ""))

/-- Result of a discovery run that terminates normally (lines 143-151). -/
structure DiscoverRunResult where
  items : Finset (String × String)
  statusCode : Nat
deriving DecidableEq

/-- The discovery `handler`: swallowed index-read failures leave the run on its
normal path, so it always returns status 200 with the computed work items. -/
def discover_handler (db : DiscoveryDB) (now : Nat) (readFails : Bool) :
    DiscoverRunResult :=
  ⟨workItems db now readFails, 200⟩

/-- Modelled from the spec (section 4.1), for comparison with the code: the
recent users (a) and session owners/members (b) of the spec's candidate set. -/
def specRecentAndSessionIds (db : DiscoveryDB) (now : Nat) : Finset String :=
  ((recent_users db.users now false).map (fun u => u.userId)).toFinset
    ∪ sessionOwnerIds db.sharedQueues
    ∪ sessionMemberIds db.queueMembers

/-- Modelled from the spec (section 4.1), for comparison with the code:
part (c), friends (either direction) of anyone in (a) or (b). -/
def specFriendOfActiveIds (db : DiscoveryDB) (now : Nat) : Finset String :=
  ((db.friends.filter
      (fun e => decide (e.userId ∈ specRecentAndSessionIds db now))).map
      (fun e => e.friendId)).toFinset
    ∪ ((db.friends.filter
      (fun e => decide (e.friendId ∈ specRecentAndSessionIds db now))).map
      (fun e => e.userId)).toFinset

/-- Modelled from the spec (section 4.1), for comparison with the code: the
enqueued set as the spec describes it, union of (a), (b), (c) minus resolved
private and minus profiles not found. -/
def specEnqueuedUserIds (db : DiscoveryDB) (now : Nat) : Finset String :=
  (specRecentAndSessionIds db now ∪ specFriendOfActiveIds db now).filter
    (fun uid => user_shareable (lookupUser db.users uid) = true)

/-! ## Presence Store (`PRESENCE_TABLE`, keyed by `userId`) and the
Presence Fetcher (`fetch_presence.py`) -/

/-- Track metadata extracted by `fetch_spotify_presence` (lines 144-154); every
field is read with `.get`, hence optional. -/
structure TrackInfo where
  trackId : Option String
  trackName : Option String
  artistName : Option String
  albumName : Option String
  albumImageUrl : Option String
  progressMs : Option Nat
  durationMs : Option Nat
deriving DecidableEq

/-- The provider response of `get_currently_playing` when it returns a body:
a dict with an `is_playing` flag and the playing item. -/
structure CurrentlyPlaying where
  is_playing : Bool
  item : TrackInfo
deriving DecidableEq

/-- The `presence_data` dict built by `fetch_spotify_presence` (lines 144-154). -/
structure PresenceData where
  isPlaying : Bool
  track : TrackInfo
  timestamp : Nat
deriving DecidableEq

/-- A row of `PRESENCE_TABLE` as written by `save_presence` (lines 208-224). -/
structure PresenceRecord where
  userId : String
  spotifyId : String
  updatedAt : Nat
  ttl : Nat
  isPlaying : Bool
  data : Option PresenceData
deriving DecidableEq

/-- The token dict returned by `refresh_access_token`. -/
structure TokenData where
  access_token : String
  expires_in : Nat
deriving DecidableEq

/-- The external Music Provider, one outcome per call index: `.error s` is a
`SpotifyAPIError` with that status code, `.ok none` from `play` is the 204
no-content path of `get_currently_playing`. -/
structure Provider where
  refresh : Nat → Except Nat TokenData
  play : Nat → Except Nat (Option CurrentlyPlaying)

/-- `fetch_spotify_presence` (lines 120-160): builds `presence_data` when a
track is playing, returns `None` on no body or `is_playing` false, re-raises
`SpotifyAPIError`. -/
def fetch_spotify_presence (p : Provider) (attempt : Nat) (now : Nat) :
    Except Nat (Option PresenceData) :=
  match p.play attempt with
  | .error s => .error s
  | .ok none => .ok none
  | .ok (some cp) =>
    if cp.is_playing then .ok (some ⟨true, cp.item, now⟩) else .ok none

/-- `get_item` on `PRESENCE_TABLE` by `userId`. -/
def lookupPresence (store : List PresenceRecord) (uid : String) :
    Option PresenceRecord :=
  store.find? (fun r => r.userId == uid)

/-- `put_item` (`dynamodb_utils.py` lines 19-43) on `PRESENCE_TABLE`: the item
replaces the row with the same key; an optional condition is evaluated against
the existing row and a failed check returns `false` leaving the table
unchanged. -/
def put_item (store : List PresenceRecord) (item : PresenceRecord)
    (cond : Option (Option PresenceRecord → Bool)) : Bool × List PresenceRecord :=
  match cond with
  | some c =>
    if c (lookupPresence store item.userId) then
      (true, item :: store.filter (fun r => r.userId != item.userId))
    else (false, store)
  | none => (true, item :: store.filter (fun r => r.userId != item.userId))

/-- The `presence_item` built by `save_presence` (lines 208-222): `updatedAt =
now`, `ttl = now + 24h`, merged track data with `isPlaying` forced true when
`presence_data` is present and false otherwise. -/
def save_presence_item (user_id spotify_id : String) (presence_data : Option PresenceData)
    (now : Nat) : PresenceRecord :=
  { userId := user_id, spotifyId := spotify_id, updatedAt := now,
    ttl := now + 24 * 60 * 60, isPlaying := presence_data.isSome,
    data := presence_data }

/-- `save_presence` (lines 199-224): an unconditional `put_item` of the built
item - no `condition_expression` is passed. -/
def save_presence (store : List PresenceRecord) (user_id spotify_id : String)
    (presence_data : Option PresenceData) (now : Nat) : List PresenceRecord :=
  (put_item store (save_presence_item user_id spotify_id presence_data now) none).2

/-- Outcome of processing one SQS record in the fetch `handler`: the presence
rows written, in order, and whether the handler re-raises (leaving the message
unacknowledged so SQS redelivers it after the visibility timeout). -/
structure FetchOutcome where
  writes : List PresenceRecord
  raisesRetry : Bool
deriving DecidableEq

/-- The `except SpotifyAPIError` block of the fetch `handler` (lines 83-106):
429 re-raises (no acknowledge), 401 refreshes once and retries the fetch,
storing only when `presence_data` is truthy (lines 94-102); any error inside
that retry is swallowed; other statuses are logged and acknowledged.
`rIdx`/`fIdx` are the next provider call indices. -/
def handleApiError (p : Provider) (user_id spotify_id : String) (now : Nat)
    (rIdx fIdx s : Nat) : FetchOutcome :=
  if s = 429 then ⟨[], true⟩
  else if s = 401 then
    match p.refresh rIdx with
    | .error _ => ⟨[], false⟩
    | .ok _ =>
      match fetch_spotify_presence p fIdx now with
      | .ok (some d) => ⟨[save_presence_item user_id spotify_id (some d) now], false⟩
      | .ok none => ⟨[], false⟩
      | .error _ => ⟨[], false⟩
  else ⟨[], false⟩

/-- Lines 71-81 of the fetch `handler`: call the provider and on success save
via `save_presence` (both the playing and the not-playing branch), otherwise
fall into the error handling. -/
def fetchAndStore (p : Provider) (user_id spotify_id : String) (now : Nat)
    (rIdx fIdx : Nat) : FetchOutcome :=
  match fetch_spotify_presence p fIdx now with
  | .ok d => ⟨[save_presence_item user_id spotify_id d now], false⟩
  | .error s => handleApiError p user_id spotify_id now rIdx (fIdx + 1) s

/-- Processing of a single SQS record by the fetch `handler` (lines 41-110):
missing user or missing tokens are logged and skipped (acknowledged); the
token is proactively refreshed when `now >= tokenExpiresAt - 300` (a refresh
error flows into the same `except SpotifyAPIError` block); then the presence
is fetched and stored. -/
def processRecord (users : List SUser) (user_id spotify_id : String) (now : Nat)
    (p : Provider) : FetchOutcome :=
  match lookupUser users user_id with
  | none => ⟨[], false⟩
  | some u =>
    if truthy u.spotifyAccessToken && truthy u.spotifyRefreshToken then
      if u.tokenExpiresAt ≤ now + 300 then
        match p.refresh 0 with
        | .error s => handleApiError p user_id spotify_id now 1 0 s
        | .ok _ => fetchAndStore p user_id spotify_id now 1 0
      else fetchAndStore p user_id spotify_id now 0 0
    else ⟨[], false⟩

/-- Applying the handler's presence writes to the store, in order. -/
def applyWrites (store : List PresenceRecord) (writes : List PresenceRecord) :
    List PresenceRecord :=
  writes.foldl (fun s w => (put_item s w none).2) store

/-! ## Presence Store read path (`get_network.py`) -/

/-- The presence sub-object of a network node (lines 66-80): built from
`presence_map.get(uid, dict())` with defaults `False` and `0`; no comparison
against the current time appears anywhere on this path. -/
structure PresenceView where
  isPlaying : Bool
  updatedAt : Nat
deriving DecidableEq

/-- The presence view `get_network` renders for a user id: the stored row if
physically present (via `batch_get_items`), regardless of its `ttl`. -/
def presenceViewFor (store : List PresenceRecord) (uid : String) : PresenceView :=
  match lookupPresence store uid with
  | none => ⟨false, 0⟩
  | some r => ⟨r.isPlaying, r.updatedAt⟩

/-! ## Change Notifier and Broadcaster (`broadcast.py`) -/

/-- A row of `CONNECTIONS_TABLE`, keyed by `connectionId`; the `UserIdIndex`
GSI queries it by `userId`. -/
structure ConnRow where
  connectionId : String
  userId : String
deriving DecidableEq

/-- Result of `post_to_connection`: `gone` is the `GoneException` client error,
`transportError` any other `ClientError`. -/
inductive SendResult where
  | ok
  | gone
  | transportError
deriving DecidableEq

/-- The tables read by the broadcast handler. -/
structure BroadcastDB where
  users : List SUser
  friends : List FriendEdge
  connections : List ConnRow
deriving DecidableEq

/-- `get_broadcast_recipients` (lines 178-213): for `friends` the friend ids
on edges keyed by the acting user; the `public` branch runs the identical
query (lines 201-211); any other value yields the empty set. -/
def get_broadcast_recipients (friends : List FriendEdge) (user_id visibility : String) :
    Finset String :=
  if visibility == "friends" then
    ((friends.filter (fun e => e.userId == user_id)).map (fun e => e.friendId)).toFinset
  else if visibility == "public" then
    ((friends.filter (fun e => e.userId == user_id)).map (fun e => e.friendId)).toFinset
  else ∅

/-- `delete_item(CONNECTIONS_TABLE, connectionId)` (line 272): unconditional
removal of the row with that key. -/
def removeConnection (reg : List ConnRow) (cid : String) : List ConnRow :=
  reg.filter (fun c => c.connectionId != cid)

/-- The inner connection loop of `broadcast_to_users` (lines 256-276): attempt
delivery to each queried connection; `GoneException` deletes that connection
record immediately; other client errors are logged; the loop always continues.
Returns the attempted connection ids in order, the success count, and the
registry after the deletions. -/
def postToConnections (send : String → SendResult) :
    List ConnRow → List ConnRow → List String × Nat × List ConnRow
  | [], reg => ([], 0, reg)
  | c :: rest, reg =>
    match send c.connectionId with
    | .ok =>
      let r := postToConnections send rest reg
      (c.connectionId :: r.1, r.2.1 + 1, r.2.2)
    | .gone =>
      let r := postToConnections send rest (removeConnection reg c.connectionId)
      (c.connectionId :: r.1, r.2.1, r.2.2)
    | .transportError =>
      let r := postToConnections send rest reg
      (c.connectionId :: r.1, r.2.1, r.2.2)

/-- One iteration of the recipient loop (lines 246-279): query the current
registry by `UserIdIndex` for the recipient and post to each connection. -/
def serveRecipient (send : String → SendResult) (reg : List ConnRow) (r : String) :
    List String × Nat × List ConnRow :=
  postToConnections send (reg.filter (fun c => c.userId == r)) reg

/-- Aggregate result of `broadcast_to_users`. -/
structure BroadcastOutcome where
  attempts : List String
  delivered : Nat
  registry : List ConnRow
deriving DecidableEq

/-- `broadcast_to_users` (lines 216-281) over the recipient ids in iteration
order: per-recipient failures never abort the remaining recipients. -/
def broadcast_to_users (send : String → SendResult) :
    List String → List ConnRow → BroadcastOutcome
  | [], reg => ⟨[], 0, reg⟩
  | r :: rest, reg =>
    let step := serveRecipient send reg r
    let restOut := broadcast_to_users send rest step.2.2
    ⟨step.1 ++ restOut.attempts, step.2.1 + restOut.delivered, restOut.registry⟩

/-- A DynamoDB stream record as read by the broadcast handler (lines 61-74):
the event name and the `userId` string extracted from the new image. -/
structure ChangeEvent where
  eventName : String
  imageUserId : Option String
deriving DecidableEq

/-- Result of the broadcast handler on one stream record: whether the record
was dropped before any broadcast, the computed audience, and the broadcast
trace. -/
structure ChangeOutcome where
  dropped : Bool
  audience : Finset String
  attempts : List String
  delivered : Nat
  registry : List ConnRow
deriving DecidableEq

/-- Processing of one stream record by the broadcast `handler` (lines 61-111):
skip non-INSERT/MODIFY events, missing `userId`, and unknown users; resolve
`visibility` with default `friends` and drop the event when it is `private`;
otherwise compute the recipients, add the user themselves, and broadcast. -/
def handleChangeRecord (db : BroadcastDB) (send : String → SendResult)
    (ev : ChangeEvent) : ChangeOutcome :=
  if !(ev.eventName == "INSERT" || ev.eventName == "MODIFY") then
    ⟨true, ∅, [], 0, db.connections⟩
  else if !(truthy ev.imageUserId) then ⟨true, ∅, [], 0, db.connections⟩
  else
    let uid := ev.imageUserId.getD ""
    match lookupUser db.users uid with
    | none => ⟨true, ∅, [], 0, db.connections⟩
    | some u =>
      if u.visibility.getD "friends" == "private" then
        ⟨true, ∅, [], 0, db.connections⟩
      else
        let recipients := get_broadcast_recipients db.friends uid
          (u.visibility.getD "friends") ∪ {uid}
        let out := broadcast_to_users send (recipients.sort (fun a b => a ≤ b)) db.connections
        ⟨false, recipients, out.attempts, out.delivered, out.registry⟩

/-! ## Behaviour of the broadcaster loops -/

lemma postToConnections_attempts (send : String → SendResult) (conns : List ConnRow) :
    ∀ reg, (postToConnections send conns reg).1 = conns.map (fun c => c.connectionId) := by
  induction conns with
  | nil => intro reg; rfl
  | cons c rest ih =>
    intro reg
    unfold postToConnections
    cases h : send c.connectionId <;> simp [ih]

lemma postToConnections_delivered (send : String → SendResult) (conns : List ConnRow) :
    ∀ reg, (postToConnections send conns reg).2.1
      = ((conns.map (fun c => c.connectionId)).filter
          (fun cid => send cid == SendResult.ok)).length := by
  induction conns with
  | nil => intro reg; rfl
  | cons c rest ih =>
    intro reg
    unfold postToConnections
    cases h : send c.connectionId <;> simp [h, ih]

lemma postToConnections_registry (send : String → SendResult) (conns : List ConnRow) :
    ∀ reg : List ConnRow, (reg.map (fun c => c.connectionId)).Nodup →
      (∀ c ∈ conns, c ∈ reg) →
      (conns.map (fun c => c.connectionId)).Nodup →
      (postToConnections send conns reg).2.2
        = reg.filter
            (fun k => !(decide (k ∈ conns) && (send k.connectionId == SendResult.gone))) := by
  induction conns with
  | nil =>
    intro reg hk hsub hcn
    simp [postToConnections]
  | cons c rest ih =>
    intro reg hk hsub hcn
    have hc : c ∈ reg := hsub c (List.mem_cons_self c rest)
    have hrest : ∀ x ∈ rest, x ∈ reg := fun x hx => hsub x (List.mem_cons_of_mem c hx)
    simp only [List.map_cons, List.nodup_cons] at hcn
    obtain ⟨hcid, hcn2⟩ := hcn
    unfold postToConnections
    cases h : send c.connectionId with
    | ok =>
      rw [ih reg hk hrest hcn2]
      refine List.filter_congr ?_
      intro k hkmem
      by_cases hek : k = c
      · subst hek; simp [h]
      · simp [List.mem_cons, hek]
    | transportError =>
      rw [ih reg hk hrest hcn2]
      refine List.filter_congr ?_
      intro k hkmem
      by_cases hek : k = c
      · subst hek; simp [h]
      · simp [List.mem_cons, hek]
    | gone =>
      have hk1 : ((removeConnection reg c.connectionId).map
          (fun x => x.connectionId)).Nodup :=
        ((List.filter_sublist reg).map (fun x => x.connectionId)).nodup hk
      have hrest1 : ∀ x ∈ rest, x ∈ removeConnection reg c.connectionId := by
        intro x hx
        refine List.mem_filter.mpr ⟨hrest x hx, ?_⟩
        have hmap : x.connectionId ∈ rest.map (fun y => y.connectionId) :=
          List.mem_map.mpr ⟨x, hx, rfl⟩
        simp only [bne_iff_ne, ne_eq]
        intro he
        exact hcid (he ▸ hmap)
      rw [ih (removeConnection reg c.connectionId) hk1 hrest1 hcn2]
      unfold removeConnection
      rw [List.filter_filter]
      refine List.filter_congr ?_
      intro k hkmem
      by_cases hek : k.connectionId = c.connectionId
      · have hkc : k = c := List.inj_on_of_nodup_map hk hkmem hc hek
        subst hkc
        simp [h]
      · have hne : k ≠ c := fun he => hek (congrArg (fun x => x.connectionId) he)
        simp [List.mem_cons, hne, hek]

lemma serveRecipient_attempts (send : String → SendResult) (reg : List ConnRow)
    (r : String) :
    (serveRecipient send reg r).1
      = (reg.filter (fun c => c.userId == r)).map (fun c => c.connectionId) :=
  postToConnections_attempts send _ reg

lemma serveRecipient_delivered (send : String → SendResult) (reg : List ConnRow)
    (r : String) :
    (serveRecipient send reg r).2.1
      = (((reg.filter (fun c => c.userId == r)).map (fun c => c.connectionId)).filter
          (fun cid => send cid == SendResult.ok)).length :=
  postToConnections_delivered send _ reg

lemma serveRecipient_registry (send : String → SendResult) (reg : List ConnRow)
    (r : String) (hk : (reg.map (fun c => c.connectionId)).Nodup) :
    (serveRecipient send reg r).2.2
      = reg.filter
          (fun k => !((k.userId == r) && (send k.connectionId == SendResult.gone))) := by
  unfold serveRecipient
  rw [postToConnections_registry send _ reg hk
    (fun c hc => List.mem_of_mem_filter hc)
    (((List.filter_sublist reg).map (fun x => x.connectionId)).nodup hk)]
  refine List.filter_congr ?_
  intro k hkmem
  by_cases h : k.userId = r <;> simp [List.mem_filter, hkmem, h]

lemma flatMap_congr_mem {α β : Type} (l : List α) (f g : α → List β)
    (h : ∀ a ∈ l, f a = g a) : l.flatMap f = l.flatMap g := by
  induction l with
  | nil => rfl
  | cons a t ih =>
    rw [List.flatMap_cons, List.flatMap_cons, h a (List.mem_cons_self a t),
      ih (fun x hx => h x (List.mem_cons_of_mem a hx))]

lemma broadcast_to_users_spec (send : String → SendResult) (recips : List String) :
    ∀ reg : List ConnRow, (reg.map (fun c => c.connectionId)).Nodup → recips.Nodup →
      (broadcast_to_users send recips reg).attempts
        = recips.flatMap
            (fun r => (reg.filter (fun c => c.userId == r)).map (fun c => c.connectionId)) ∧
      (broadcast_to_users send recips reg).registry
        = reg.filter
            (fun k => !(decide (k.userId ∈ recips) && (send k.connectionId == SendResult.gone))) ∧
      (broadcast_to_users send recips reg).delivered
        = ((broadcast_to_users send recips reg).attempts.filter
            (fun cid => send cid == SendResult.ok)).length := by
  induction recips with
  | nil =>
    intro reg hk hnr
    refine ⟨rfl, ?_, rfl⟩
    simp [broadcast_to_users]
  | cons r rest ih =>
    intro reg hk hnr
    rw [List.nodup_cons] at hnr
    obtain ⟨hr, hnr2⟩ := hnr
    have hreg1 : (serveRecipient send reg r).2.2
        = reg.filter (fun k => !((k.userId == r) && (send k.connectionId == SendResult.gone))) :=
      serveRecipient_registry send reg r hk
    have hk1 : (((serveRecipient send reg r).2.2).map (fun c => c.connectionId)).Nodup := by
      rw [hreg1]
      exact ((List.filter_sublist reg).map (fun x => x.connectionId)).nodup hk
    obtain ⟨iha, ihr, ihd⟩ := ih (serveRecipient send reg r).2.2 hk1 hnr2
    have hfilter1 : ∀ r2 ∈ rest,
        ((serveRecipient send reg r).2.2).filter (fun c => c.userId == r2)
          = reg.filter (fun c => c.userId == r2) := by
      intro r2 hr2
      rw [hreg1, List.filter_filter]
      refine List.filter_congr ?_
      intro k hkmem
      have hne : r2 ≠ r := fun he => hr (he ▸ hr2)
      by_cases h2 : k.userId = r2
      · simp [h2, hne]
      · simp [h2]
    constructor
    · show (serveRecipient send reg r).1 ++ (broadcast_to_users send rest _).attempts = _
      rw [List.flatMap_cons, serveRecipient_attempts, iha,
        flatMap_congr_mem rest _ _ (fun r2 hr2 => by rw [hfilter1 r2 hr2])]
    constructor
    · show (broadcast_to_users send rest _).registry = _
      rw [ihr, hreg1, List.filter_filter]
      refine List.filter_congr ?_
      intro k hkmem
      by_cases h1 : k.userId = r <;>
        by_cases h2 : k.userId ∈ rest <;>
          by_cases h3 : send k.connectionId = SendResult.gone <;>
            simp [List.mem_cons, h1, h2, h3]
    · show (serveRecipient send reg r).2.1 + (broadcast_to_users send rest _).delivered = _
      rw [ihd, serveRecipient_delivered]
      show _ = (((serveRecipient send reg r).1 ++ (broadcast_to_users send rest _).attempts).filter _).length
      rw [List.filter_append, List.length_append, serveRecipient_attempts]

lemma count_in_block (reg : List ConnRow)
    (hk : (reg.map (fun c => c.connectionId)).Nodup) (C : ConnRow) (hC : C ∈ reg)
    (r : String) :
    (((reg.filter (fun c => c.userId == r)).map (fun c => c.connectionId)).count
        C.connectionId)
      = if C.userId = r then 1 else 0 := by
  have hnd : ((reg.filter (fun c => c.userId == r)).map (fun c => c.connectionId)).Nodup :=
    ((List.filter_sublist reg).map (fun x => x.connectionId)).nodup hk
  by_cases h : C.userId = r
  · rw [if_pos h]
    refine List.count_eq_one_of_mem hnd ?_
    exact List.mem_map.mpr ⟨C, List.mem_filter.mpr ⟨hC, by simp [h]⟩, rfl⟩
  · rw [if_neg h]
    refine List.count_eq_zero.mpr ?_
    intro hmem
    obtain ⟨k, hkf, hkid⟩ := List.mem_map.mp hmem
    have hkreg : k ∈ reg := List.mem_of_mem_filter hkf
    have hkr : k.userId = r := by
      have := (List.mem_filter.mp hkf).2
      simpa using this
    have : k = C := List.inj_on_of_nodup_map hk hkreg hC hkid
    exact h (this ▸ hkr)

lemma count_in_attempts (reg : List ConnRow)
    (hk : (reg.map (fun c => c.connectionId)).Nodup) (C : ConnRow) (hC : C ∈ reg) :
    ∀ recips : List String, recips.Nodup →
      ((recips.flatMap
          (fun r => (reg.filter (fun c => c.userId == r)).map
            (fun c => c.connectionId))).count C.connectionId)
        = if C.userId ∈ recips then 1 else 0 := by
  intro recips
  induction recips with
  | nil => intro hnr; simp
  | cons r rest ih =>
    intro hnr
    rw [List.nodup_cons] at hnr
    obtain ⟨hr, hnr2⟩ := hnr
    rw [List.flatMap_cons, List.count_append, count_in_block reg hk C hC r, ih hnr2]
    by_cases h : C.userId = r
    · have hnotin : C.userId ∉ rest := fun hmem => hr (h ▸ hmem)
      simp [h, hnotin, hr]
    · simp [List.mem_cons, h]

/-! ## Behaviour of the discovery lookups -/

lemma find?_keyed {α : Type} (key : α → String) (l : List α) (u : α) (k : String)
    (hnd : (l.map key).Nodup) (hu : u ∈ l) (hk : key u = k) :
    l.find? (fun v => key v == k) = some u := by
  induction l with
  | nil => cases hu
  | cons a t ih =>
    rw [List.map_cons, List.nodup_cons] at hnd
    rcases List.mem_cons.mp hu with h | h
    · subst h
      simp [List.find?_cons, hk]
    · have hne : key a ≠ k := by
        intro he
        exact hnd.1 (by
          rw [he, ← hk]
          exact List.mem_map.mpr ⟨u, h, rfl⟩)
      have hfa : (key a == k) = false := by simp [hne]
      rw [List.find?_cons, hfa]
      exact ih hnd.2 h

lemma mem_recent_users {users : List SUser} {now : Nat} {readFails : Bool} {u : SUser}
    (h : u ∈ recent_users users now readFails) : u ∈ users := by
  unfold recent_users queryRecentByVisibility at h
  rcases List.mem_append.mp h with h | h <;>
    · split at h
      · cases h
      · exact List.mem_of_mem_filter h

lemma discoveryLookup_eq_lookupUser (db : DiscoveryDB) (now : Nat) (readFails : Bool)
    (hnd : (db.users.map (fun u => u.userId)).Nodup) (uid : String) :
    discoveryLookup db now readFails uid = lookupUser db.users uid := by
  unfold discoveryLookup
  cases hfind : (recent_users db.users now readFails).find? (fun u => u.userId == uid) with
  | none => rfl
  | some u =>
    have hmem : u ∈ db.users := mem_recent_users (List.mem_of_find?_eq_some hfind)
    have hpred : u.userId = uid := by
      have := List.find?_some hfind
      simpa using this
    have hlk : lookupUser db.users uid = some u := by
      unfold lookupUser
      exact find?_keyed (fun v => v.userId) db.users u uid hnd hmem hpred
    rw [hlk]
    rfl

lemma recent_users_readFails (users : List SUser) (now : Nat) :
    recent_users users now true = [] := rfl

/-! ## Concrete instances used by counterexamples and witnesses -/

/-- A public user whose last activity is stale (outside the 7-day window). -/
def staleUserX : SUser := ⟨"ux", "sx", some "public", 0, none, none, 0⟩

/-- A second stale public user. -/
def staleUserY : SUser := ⟨"uy", "sy", some "public", 0, none, none, 0⟩

/-- A discovery database holding only the isolated friend pair
`(ux, uy)`: neither user is recent and no session exists. -/
def dbIsolatedPair : DiscoveryDB := ⟨[staleUserX, staleUserY], [], [], [⟨"ux", "uy"⟩]⟩

/-- A reference wall-clock instant (seconds). -/
def nowRef : Nat := 1000000000

/-- A user with valid tokens far from expiry. -/
def tokUser : SUser :=
  ⟨"u1", "s1", some "friends", 0, some "tok", some "rtok", 2000000000⟩

/-- A provider whose first playback call is 401 Unauthorized, whose refresh
succeeds, and whose retried playback call reports no active playback. -/
def providerUnauthThenIdle : Provider :=
  ⟨fun _ => .ok ⟨"newtok", 3600⟩, fun n => if n = 0 then .error 401 else .ok none⟩

/-- A provider that is always rate-limited. -/
def providerRateLimited : Provider :=
  ⟨fun _ => .ok ⟨"newtok", 3600⟩, fun _ => .error 429⟩

/-- A provider whose playback call always reports no active playback. -/
def providerIdle : Provider :=
  ⟨fun _ => .ok ⟨"newtok", 3600⟩, fun _ => .ok none⟩

/-- A stored presence row with `updatedAt = 10`. -/
def storedRec10 : PresenceRecord := ⟨"u", "s", 10, 86410, true, none⟩

/-- A stored presence row whose TTL (100) has elapsed at time 200. -/
def expiredRec : PresenceRecord := ⟨"u", "s", 50, 100, true, none⟩

/-- A broadcast database: user `a` visible to friends, mutual edges with `b`,
`b` holding two live connections and `a` one. -/
def bdbFriends : BroadcastDB :=
  ⟨[⟨"a", "sa", some "friends", 0, none, none, 0⟩,
    ⟨"b", "sb", some "friends", 0, none, none, 0⟩],
   [⟨"a", "b"⟩, ⟨"b", "a"⟩],
   [⟨"c1", "b"⟩, ⟨"c2", "b"⟩, ⟨"c3", "a"⟩]⟩

/-- The same database with user `a` private. -/
def bdbPrivate : BroadcastDB :=
  ⟨[⟨"a", "sa", some "private", 0, none, none, 0⟩],
   [⟨"a", "b"⟩], [⟨"c1", "b"⟩]⟩

/-- The same database with user `a` lacking the `visibility` attribute. -/
def bdbNoVis : BroadcastDB :=
  ⟨[⟨"a", "sa", none, 0, none, none, 0⟩],
   [⟨"a", "b"⟩, ⟨"b", "a"⟩],
   [⟨"c1", "b"⟩, ⟨"c2", "b"⟩, ⟨"c3", "a"⟩]⟩

/-- A stream record for an insert of user `a`'s presence row. -/
def insertEventA : ChangeEvent := ⟨"INSERT", some "a"⟩

/-- A transport where connection `c1` is gone and all others reachable. -/
def sendC1Gone : String → SendResult :=
  fun cid => if cid == "c1" then SendResult.gone else SendResult.ok

/-! ## Claims -/

/-- C2: for every change event whose owning user's resolved visibility is
`private`, the broadcast handler drops the event: the outcome is the dropped
outcome with empty audience, no delivery attempts, and an unchanged connection
registry. -/
theorem c2_private_drops_event (db : BroadcastDB) (send : String → SendResult)
    (ev : ChangeEvent) (uid : String) (u : SUser)
    (hid : ev.imageUserId = some uid)
    (hu : lookupUser db.users uid = some u)
    (hvis : u.visibility.getD "friends" = "private") :
    handleChangeRecord db send ev = ⟨true, ∅, [], 0, db.connections⟩ := by
  unfold handleChangeRecord
  split
  · rfl
  · rw [hid]
    by_cases h : truthy (some uid) = true
    · rw [if_neg (by simp [h])]
      simp only [Option.getD_some, hu, hvis]
      rfl
    · rw [if_pos (by simp [Bool.not_eq_true] at h; simp [h])]

/-- Witness for C2 at a concrete database. -/
theorem c2_private_drops_event_witness :
    insertEventA.imageUserId = some "a" ∧
    lookupUser bdbPrivate.users "a" = some ⟨"a", "sa", some "private", 0, none, none, 0⟩ ∧
    handleChangeRecord bdbPrivate sendC1Gone insertEventA
      = ⟨true, ∅, [], 0, bdbPrivate.connections⟩ :=
  ⟨by decide, by decide,
    c2_private_drops_event bdbPrivate sendC1Gone insertEventA "a"
      ⟨"a", "sa", some "private", 0, none, none, 0⟩ (by decide) (by decide) (by decide)⟩

/-- C3 counterexample: the stored record for `u` has `updatedAt = 10`; a write
arriving with clock 5 builds a record with `updatedAt = 5`, which is not
strictly greater, yet `save_presence` replaces the stored record instead of
rejecting the write - the write is not conditioned on `updatedAt` strictly
increasing. -/
theorem c3_conditional_write_counterexample :
    storedRec10.updatedAt = 10 ∧
    (save_presence_item "u" "s" none 5).updatedAt = 5 ∧
    lookupPresence [storedRec10] "u" = some storedRec10 ∧
    lookupPresence (save_presence [storedRec10] "u" "s" none 5) "u"
      = some (save_presence_item "u" "s" none 5) := by
  decide

/-- C3 amended: writes to the Presence Store are unconditional overwrites -
`save_presence` passes no condition expression to `put_item`, so the new
record replaces the row with the same key regardless of `updatedAt` ordering. -/
theorem c3_unconditional_write_amended (store : List PresenceRecord)
    (uid sid : String) (d : Option PresenceData) (now : Nat) :
    save_presence store uid sid d now
      = save_presence_item uid sid d now :: store.filter (fun r => r.userId != uid) ∧
    lookupPresence (save_presence store uid sid d now) uid
      = some (save_presence_item uid sid d now) := by
  constructor
  · rfl
  · unfold lookupPresence save_presence put_item
    simp [List.find?_cons, save_presence_item]

/-- C7 counterexample: the stored record for `u` has `ttl = 100`, elapsed at
time 200, yet the network read path still renders its playback state - an
expired but unpurged record is not treated as absent. -/
theorem c7_ttl_read_counterexample :
    lookupPresence [expiredRec] "u" = some expiredRec ∧
    expiredRec.ttl < 200 ∧
    presenceViewFor [expiredRec] "u" ≠ ⟨false, 0⟩ := by
  decide

/-- C7 amended: the read path applies no TTL filter - a physically present
record is returned as-is even when its TTL has elapsed; expiry is enforced
only by the store's physical purge. -/
theorem c7_ttl_read_amended (store : List PresenceRecord) (uid : String)
    (r : PresenceRecord) (now : Nat)
    (h : lookupPresence store uid = some r) (_hexp : r.ttl < now) :
    presenceViewFor store uid = ⟨r.isPlaying, r.updatedAt⟩ := by
  unfold presenceViewFor
  rw [h]

/-- Witness for the amended C7 at a concrete expired record. -/
theorem c7_ttl_read_amended_witness :
    lookupPresence [expiredRec] "u" = some expiredRec ∧ expiredRec.ttl < 200 ∧
    presenceViewFor [expiredRec] "u" = ⟨expiredRec.isPlaying, expiredRec.updatedAt⟩ :=
  ⟨by decide, by decide,
    c7_ttl_read_amended [expiredRec] "u" expiredRec 200 (by decide) (by decide)⟩

/-- C4 counterexample: with the two candidate-index reads failing
(`ClientError`, swallowed by `query_items` into an empty result), the
discovery run over the isolated friend pair still enqueues work items and
returns status 200 - the failure neither propagates to the scheduler nor
prevents enqueuing. -/
theorem c4_fatal_read_failure_counterexample :
    (discover_handler dbIsolatedPair nowRef true).statusCode = 200 ∧
    (discover_handler dbIsolatedPair nowRef true).items ≠ ∅ := by
  decide

/-- C4 amended: a `ClientError` reading the candidate indexes is swallowed by
the query helper (empty result): the run continues with the session and
friendship sources, still enqueues every surviving candidate from those
sources, resolves the shareability filter directly against the users table,
and returns success to the scheduler. -/
theorem c4_read_failure_swallowed_amended (db : DiscoveryDB) (now : Nat)
    (uid : String) :
    (discover_handler db now true).statusCode = 200 ∧
    (uid ∈ enqueuedUserIds db now true ↔
      (uid ∈ sessionOwnerIds db.sharedQueues ∨ uid ∈ sessionMemberIds db.queueMembers ∨
        uid ∈ friendEndpointIds db.friends) ∧
      user_shareable (lookupUser db.users uid) = true) := by
  refine ⟨rfl, ?_⟩
  have hlk : discoveryLookup db now true uid = lookupUser db.users uid := rfl
  simp [enqueuedUserIds, Finset.mem_filter, active_user_ids, Finset.mem_union,
    recent_users_readFails, hlk, or_assoc]

/-- C1 counterexample: in the database holding only the isolated stale friend
pair `(ux, uy)` - neither endpoint recent, no session - the code enqueues both
endpoints, while the spec's candidate set (friends of someone in (a) or (b))
is empty. -/
theorem c1_enqueued_set_counterexample :
    specEnqueuedUserIds dbIsolatedPair nowRef = ∅ ∧
    enqueuedUserIds dbIsolatedPair nowRef false ≠ specEnqueuedUserIds dbIsolatedPair nowRef := by
  decide

/-- C1 amended: the enqueued set equals the union of (a) the recent shareable
users, (b) session owners and members, and (c) both endpoints of every friend
edge - regardless of whether the other endpoint is active - filtered by the
resolved profile being found and non-private; exactly one work item is
produced per surviving candidate. -/
theorem c1_enqueued_set_amended (db : DiscoveryDB) (now : Nat) (uid : String)
    (hnd : (db.users.map (fun u => u.userId)).Nodup) :
    (uid ∈ enqueuedUserIds db now false ↔
      (uid ∈ ((recent_users db.users now false).map (fun u => u.userId)).toFinset ∨
        uid ∈ sessionOwnerIds db.sharedQueues ∨
        uid ∈ sessionMemberIds db.queueMembers ∨
        uid ∈ friendEndpointIds db.friends) ∧
      user_shareable (lookupUser db.users uid) = true) ∧
    (workItems db now false).card = (enqueuedUserIds db now false).card := by
  constructor
  · rw [← discoveryLookup_eq_lookupUser db now false hnd uid]
    simp [enqueuedUserIds, Finset.mem_filter, active_user_ids, Finset.mem_union, or_assoc]
  · exact Finset.card_image_of_injOn
      (fun a _ b _ h => congrArg Prod.fst h)

/-- Witness for the amended C1 at the isolated pair database. -/
theorem c1_enqueued_set_amended_witness :
    (dbIsolatedPair.users.map (fun u => u.userId)).Nodup ∧
    ((("ux" : String) ∈ enqueuedUserIds dbIsolatedPair nowRef false ↔
      (("ux" : String) ∈ ((recent_users dbIsolatedPair.users nowRef false).map
          (fun u => u.userId)).toFinset ∨
        ("ux" : String) ∈ sessionOwnerIds dbIsolatedPair.sharedQueues ∨
        ("ux" : String) ∈ sessionMemberIds dbIsolatedPair.queueMembers ∨
        ("ux" : String) ∈ friendEndpointIds dbIsolatedPair.friends) ∧
      user_shareable (lookupUser dbIsolatedPair.users "ux") = true) ∧
    (workItems dbIsolatedPair nowRef false).card
      = (enqueuedUserIds dbIsolatedPair nowRef false).card) :=
  ⟨by decide, c1_enqueued_set_amended dbIsolatedPair nowRef "ux" (by decide)⟩

/-- C5: when the provider is rate-limited on the first delivery, the fetcher
writes nothing to the Presence Store and re-raises (the message is not
acknowledged and becomes redeliverable); the fetcher has no retry counter of
its own - the redelivery runs the same function - and a successful redelivery
leaves exactly one stored record for the user. -/
theorem c5_rate_limit_redelivery (users : List SUser) (uid sid : String)
    (now now2 : Nat) (p1 p2 : Provider) (u : SUser)
    (d : Option CurrentlyPlaying) (store : List PresenceRecord)
    (hu : lookupUser users uid = some u)
    (h1 : truthy u.spotifyAccessToken = true)
    (h2 : truthy u.spotifyRefreshToken = true)
    (hfresh : now + 300 < u.tokenExpiresAt)
    (hfresh2 : now2 + 300 < u.tokenExpiresAt)
    (h429 : p1.play 0 = .error 429)
    (hok : p2.play 0 = .ok d) :
    processRecord users uid sid now p1 = ⟨[], true⟩ ∧
    applyWrites store (processRecord users uid sid now p1).writes = store ∧
    (processRecord users uid sid now2 p2).raisesRetry = false ∧
    ((applyWrites store (processRecord users uid sid now2 p2).writes).filter
        (fun r => r.userId == uid)).length = 1 := by
  have hif : ¬(u.tokenExpiresAt ≤ now + 300) := Nat.not_le.mpr hfresh
  have hif2 : ¬(u.tokenExpiresAt ≤ now2 + 300) := Nat.not_le.mpr hfresh2
  have hp1 : processRecord users uid sid now p1 = ⟨[], true⟩ := by
    simp [processRecord, hu, h1, h2, hif, fetchAndStore, fetch_spotify_presence,
      h429, handleApiError]
  have hp2 : ∃ w : PresenceRecord,
      processRecord users uid sid now2 p2 = ⟨[w], false⟩ ∧ w.userId = uid := by
    rcases d with _ | cp
    · exact ⟨save_presence_item uid sid none now2,
        by simp [processRecord, hu, h1, h2, hif2, fetchAndStore,
          fetch_spotify_presence, hok], rfl⟩
    · by_cases hcp : cp.is_playing = true
      · exact ⟨save_presence_item uid sid (some ⟨true, cp.item, now2⟩) now2,
          by simp [processRecord, hu, h1, h2, hif2, fetchAndStore,
            fetch_spotify_presence, hok, hcp], rfl⟩
      · exact ⟨save_presence_item uid sid none now2,
          by simp [processRecord, hu, h1, h2, hif2, fetchAndStore,
            fetch_spotify_presence, hok, hcp], rfl⟩
  obtain ⟨w, hw, hwid⟩ := hp2
  refine ⟨hp1, by rw [hp1]; rfl, by rw [hw], ?_⟩
  rw [hw]
  have happ : applyWrites store [w] = w :: store.filter (fun r => r.userId != w.userId) := by
    simp [applyWrites, put_item]
  rw [happ, hwid]
  have hnil : (store.filter (fun r => r.userId != uid)).filter
      (fun r => r.userId == uid) = [] := by
    rw [List.filter_filter]
    refine List.filter_eq_nil_iff.mpr ?_
    intro a ha
    cases h : a.userId == uid <;> simp [bne, h]
  simp [List.filter_cons, hwid, hnil]

/-- Witness for C5 at a concrete user, store and provider pair. -/
theorem c5_rate_limit_redelivery_witness :
    providerRateLimited.play 0 = .error 429 ∧
    providerIdle.play 0 = .ok none ∧
    (processRecord [tokUser] "u1" "s1" 100 providerRateLimited = ⟨[], true⟩ ∧
      applyWrites [] (processRecord [tokUser] "u1" "s1" 100 providerRateLimited).writes = [] ∧
      (processRecord [tokUser] "u1" "s1" 200 providerIdle).raisesRetry = false ∧
      ((applyWrites [] (processRecord [tokUser] "u1" "s1" 200 providerIdle).writes).filter
          (fun r => r.userId == "u1")).length = 1) :=
  ⟨rfl, rfl,
    c5_rate_limit_redelivery [tokUser] "u1" "s1" 100 200 providerRateLimited
      providerIdle tokUser none [] (by decide) (by decide) (by decide) (by decide)
      (by decide) rfl rfl⟩

/-- C6 counterexample: with valid, unexpired credentials, the first playback
call returns 401, the refresh succeeds, and the retried call succeeds with no
active playback - a successful fetch - yet the fetcher writes no
PresenceRecord at all (while still acknowledging the message): on the
unauthorized-retry path the claimed `isPlaying = false` record is not
written. -/
theorem c6_success_write_counterexample :
    providerUnauthThenIdle.play 0 = .error 401 ∧
    fetch_spotify_presence providerUnauthThenIdle 1 100 = .ok none ∧
    processRecord [tokUser] "u1" "s1" 100 providerUnauthThenIdle = ⟨[], false⟩ :=
  ⟨rfl, rfl, by decide⟩

/-- C6 amended: on the direct path every successful fetch - including no
active playback, saved with `isPlaying = false` - writes one record with
`updatedAt = now` and `ttl = now + 24h` and acknowledges; on the
unauthorized-refresh-retry path a record is written only when playback is
active, and a no-playback retry result writes nothing while still
acknowledging. -/
theorem c6_success_write_amended (users : List SUser) (uid sid : String)
    (now : Nat) (p : Provider) (u : SUser)
    (hu : lookupUser users uid = some u)
    (h1 : truthy u.spotifyAccessToken = true)
    (h2 : truthy u.spotifyRefreshToken = true)
    (hfresh : now + 300 < u.tokenExpiresAt) :
    (∀ d : Option PresenceData, fetch_spotify_presence p 0 now = .ok d →
      processRecord users uid sid now p = ⟨[save_presence_item uid sid d now], false⟩ ∧
      (save_presence_item uid sid d now).updatedAt = now ∧
      (save_presence_item uid sid d now).ttl = now + 24 * 60 * 60 ∧
      (save_presence_item uid sid d now).isPlaying = d.isSome) ∧
    (∀ (td : TokenData) (d : PresenceData), p.play 0 = .error 401 →
      p.refresh 0 = .ok td → fetch_spotify_presence p 1 now = .ok (some d) →
      processRecord users uid sid now p
        = ⟨[save_presence_item uid sid (some d) now], false⟩) ∧
    (∀ td : TokenData, p.play 0 = .error 401 → p.refresh 0 = .ok td →
      fetch_spotify_presence p 1 now = .ok none →
      processRecord users uid sid now p = ⟨[], false⟩) := by
  have hif : ¬(u.tokenExpiresAt ≤ now + 300) := Nat.not_le.mpr hfresh
  refine ⟨?_, ?_, ?_⟩
  · intro d hd
    refine ⟨?_, rfl, rfl, rfl⟩
    simp [processRecord, hu, h1, h2, hif, fetchAndStore, hd]
  · intro td d h401 href hretry
    have hf0 : fetch_spotify_presence p 0 now = .error 401 := by
      simp [fetch_spotify_presence, h401]
    simp [processRecord, hu, h1, h2, hif, fetchAndStore, hf0, handleApiError,
      href, hretry]
  · intro td h401 href hretry
    have hf0 : fetch_spotify_presence p 0 now = .error 401 := by
      simp [fetch_spotify_presence, h401]
    simp [processRecord, hu, h1, h2, hif, fetchAndStore, hf0, handleApiError,
      href, hretry]

/-- Witness for the amended C6: the direct no-playback path at a concrete
user and provider. -/
theorem c6_success_write_amended_witness :
    lookupUser [tokUser] "u1" = some tokUser ∧
    truthy tokUser.spotifyAccessToken = true ∧
    truthy tokUser.spotifyRefreshToken = true ∧
    100 + 300 < tokUser.tokenExpiresAt ∧
    processRecord [tokUser] "u1" "s1" 100 providerIdle
      = ⟨[save_presence_item "u1" "s1" none 100], false⟩ :=
  ⟨by decide, by decide, by decide, by decide,
    ((c6_success_write_amended [tokUser] "u1" "s1" 100 providerIdle tokUser
      (by decide) (by decide) (by decide) (by decide)).1 none rfl).1⟩

/-- C8: for a change event of a user with well-formed non-private visibility,
`friends` and `public` produce the identical fan-out, the computed audience is
the friend ids on edges keyed by the acting user plus the user themselves, and
every single edge keyed by the user contributes its friend id - so with both
edges `(A,B)` and `(B,A)` present, a change for `A` reaches `B` and vice
versa. -/
theorem c8_audience_fanout (db : BroadcastDB) (send : String → SendResult)
    (ev : ChangeEvent) (uid : String) (u : SUser)
    (hev : ev.eventName = "INSERT")
    (hid : ev.imageUserId = some uid) (hne : uid ≠ "")
    (hu : lookupUser db.users uid = some u)
    (hvis : u.visibility = some "friends" ∨ u.visibility = some "public") :
    (handleChangeRecord db send ev).audience
        = ((db.friends.filter (fun e => e.userId == uid)).map
            (fun e => e.friendId)).toFinset ∪ {uid} ∧
    get_broadcast_recipients db.friends uid "friends"
      = get_broadcast_recipients db.friends uid "public" ∧
    (∀ e ∈ db.friends, e.userId = uid →
      e.friendId ∈ (handleChangeRecord db send ev).audience) := by
  have hrec : ∀ v, v = "friends" ∨ v = "public" →
      get_broadcast_recipients db.friends uid v
        = ((db.friends.filter (fun e => e.userId == uid)).map
            (fun e => e.friendId)).toFinset := by
    intro v hv
    rcases hv with h | h <;> subst h <;> simp [get_broadcast_recipients]
  have hvd : u.visibility.getD "friends" = "friends" ∨
      u.visibility.getD "friends" = "public" := by
    rcases hvis with h | h <;> simp [h]
  have hnp : u.visibility.getD "friends" ≠ "private" := by
    rcases hvd with h | h <;> simp [h]
  have haud : (handleChangeRecord db send ev).audience
      = ((db.friends.filter (fun e => e.userId == uid)).map
          (fun e => e.friendId)).toFinset ∪ {uid} := by
    unfold handleChangeRecord
    simp [hev, hid, truthy, hne, hu, hnp, hrec _ hvd]
  refine ⟨haud, ?_, ?_⟩
  · rw [hrec "friends" (Or.inl rfl), hrec "public" (Or.inr rfl)]
  · intro e he heq
    rw [haud]
    refine Finset.mem_union_left _ ?_
    rw [List.mem_toFinset]
    exact List.mem_map.mpr ⟨e, List.mem_filter.mpr ⟨he, by simp [heq]⟩, rfl⟩

/-- Witness for C8 at the mutual pair `(a, b)`. -/
theorem c8_audience_fanout_witness :
    lookupUser bdbFriends.users "a" = some ⟨"a", "sa", some "friends", 0, none, none, 0⟩ ∧
    ((handleChangeRecord bdbFriends sendC1Gone insertEventA).audience
        = ((bdbFriends.friends.filter (fun e => e.userId == "a")).map
            (fun e => e.friendId)).toFinset ∪ {"a"} ∧
      get_broadcast_recipients bdbFriends.friends "a" "friends"
        = get_broadcast_recipients bdbFriends.friends "a" "public" ∧
      (∀ e ∈ bdbFriends.friends, e.userId = "a" →
        e.friendId ∈ (handleChangeRecord bdbFriends sendC1Gone insertEventA).audience)) :=
  ⟨by decide,
    c8_audience_fanout bdbFriends sendC1Gone insertEventA "a"
      ⟨"a", "sa", some "friends", 0, none, none, 0⟩ (by decide) (by decide)
      (by decide) (by decide) (Or.inl (by decide))⟩

/-- C9: a peer-gone failure for connection `C` removes exactly `C`'s record
from the registry - it is absent from the result, while any other connection's
survival depends only on its own outcome - `C` is attempted exactly once (no
retry), and the delivered count equals the successful attempts over the whole
audience (no abort of remaining connections or recipients). -/
theorem c9_peer_gone_pruning (send : String → SendResult) (recips : List String)
    (reg : List ConnRow) (C : ConnRow)
    (hk : (reg.map (fun c => c.connectionId)).Nodup)
    (hnr : recips.Nodup)
    (hC : C ∈ reg) (hCr : C.userId ∈ recips)
    (hgone : send C.connectionId = SendResult.gone) :
    C ∉ (broadcast_to_users send recips reg).registry ∧
    (∀ c ∈ reg, c.connectionId ≠ C.connectionId →
      (c ∈ (broadcast_to_users send recips reg).registry ↔
        ¬(c.userId ∈ recips ∧ send c.connectionId = SendResult.gone))) ∧
    (broadcast_to_users send recips reg).attempts.count C.connectionId = 1 ∧
    (broadcast_to_users send recips reg).delivered
      = ((broadcast_to_users send recips reg).attempts.filter
          (fun cid => send cid == SendResult.ok)).length := by
  obtain ⟨ha, hr, hd⟩ := broadcast_to_users_spec send recips reg hk hnr
  refine ⟨?_, ?_, ?_, hd⟩
  · rw [hr]
    intro hmem
    have hp := (List.mem_filter.mp hmem).2
    simp [hCr, hgone] at hp
  · intro c hcreg _hcne
    rw [hr, List.mem_filter]
    by_cases hm : c.userId ∈ recips <;>
      by_cases hg : send c.connectionId = SendResult.gone <;>
        simp [hcreg, hm, hg]
  · rw [ha, count_in_attempts reg hk C hC recips hnr, if_pos hCr]

/-- Witness for C9: connection `c1` of user `b` is gone; `c2` and `c3`
survive and receive their deliveries. -/
theorem c9_peer_gone_pruning_witness :
    (bdbFriends.connections.map (fun c => c.connectionId)).Nodup ∧
    sendC1Gone "c1" = SendResult.gone ∧
    ((⟨"c1", "b"⟩ : ConnRow) ∉
        (broadcast_to_users sendC1Gone ["a", "b"] bdbFriends.connections).registry ∧
      (∀ c ∈ bdbFriends.connections, c.connectionId ≠ (⟨"c1", "b"⟩ : ConnRow).connectionId →
        (c ∈ (broadcast_to_users sendC1Gone ["a", "b"] bdbFriends.connections).registry ↔
          ¬(c.userId ∈ ["a", "b"] ∧ sendC1Gone c.connectionId = SendResult.gone))) ∧
      (broadcast_to_users sendC1Gone ["a", "b"] bdbFriends.connections).attempts.count
          (⟨"c1", "b"⟩ : ConnRow).connectionId = 1 ∧
      (broadcast_to_users sendC1Gone ["a", "b"] bdbFriends.connections).delivered
        = ((broadcast_to_users sendC1Gone ["a", "b"] bdbFriends.connections).attempts.filter
            (fun cid => sendC1Gone cid == SendResult.ok)).length) :=
  ⟨by decide, by decide,
    c9_peer_gone_pruning sendC1Gone ["a", "b"] bdbFriends.connections ⟨"c1", "b"⟩
      (by decide) (by decide) (by decide) (by decide) (by decide)⟩

/-- C10: a user record lacking the `visibility` attribute resolves to
`friends` throughout the pipeline: discovery treats the user as shareable and
enqueues them once gathered, and the broadcast handler does not drop their
change events but fans out to their friends plus themselves. -/
theorem c10_default_visibility_friends
    (db : DiscoveryDB) (now : Nat) (uid : String) (u : SUser)
    (bdb : BroadcastDB) (send : String → SendResult) (ev : ChangeEvent) (w : SUser)
    (hnd : (db.users.map (fun v => v.userId)).Nodup)
    (hact : uid ∈ active_user_ids db now false)
    (hlu : lookupUser db.users uid = some u) (hv : u.visibility = none)
    (hev : ev.eventName = "INSERT") (hid : ev.imageUserId = some uid) (hne : uid ≠ "")
    (hbu : lookupUser bdb.users uid = some w) (hwv : w.visibility = none) :
    user_shareable (some u) = true ∧
    uid ∈ enqueuedUserIds db now false ∧
    (handleChangeRecord bdb send ev).dropped = false ∧
    (handleChangeRecord bdb send ev).audience
      = ((bdb.friends.filter (fun e => e.userId == uid)).map
          (fun e => e.friendId)).toFinset ∪ {uid} := by
  have hsh : user_shareable (some u) = true := by simp [user_shareable, hv]
  have hnp : w.visibility.getD "friends" ≠ "private" := by simp [hwv]
  refine ⟨hsh, ?_, ?_, ?_⟩
  · refine Finset.mem_filter.mpr ⟨hact, ?_⟩
    rw [discoveryLookup_eq_lookupUser db now false hnd uid, hlu]
    exact hsh
  · unfold handleChangeRecord
    simp [hev, hid, truthy, hne, hbu, hnp]
  · unfold handleChangeRecord
    simp [hev, hid, truthy, hne, hbu, hwv, get_broadcast_recipients]

/-- Witness for C10: user `a` without a visibility attribute, gathered via a
friend edge on the discovery side and broadcasting to friends. -/
theorem c10_default_visibility_friends_witness :
    ("a" : String) ∈ active_user_ids ⟨[⟨"a", "sa", none, 0, none, none, 0⟩], [], [],
        [⟨"a", "b"⟩]⟩ nowRef false ∧
    (user_shareable (some ⟨"a", "sa", none, 0, none, none, 0⟩) = true ∧
      ("a" : String) ∈ enqueuedUserIds ⟨[⟨"a", "sa", none, 0, none, none, 0⟩], [], [],
        [⟨"a", "b"⟩]⟩ nowRef false ∧
      (handleChangeRecord bdbNoVis sendC1Gone insertEventA).dropped = false ∧
      (handleChangeRecord bdbNoVis sendC1Gone insertEventA).audience
        = ((bdbNoVis.friends.filter (fun e => e.userId == "a")).map
            (fun e => e.friendId)).toFinset ∪ {"a"}) :=
  ⟨by decide,
    c10_default_visibility_friends
      ⟨[⟨"a", "sa", none, 0, none, none, 0⟩], [], [], [⟨"a", "b"⟩]⟩ nowRef "a"
      ⟨"a", "sa", none, 0, none, none, 0⟩ bdbNoVis sendC1Gone insertEventA
      ⟨"a", "sa", none, 0, none, none, 0⟩ (by decide) (by decide) (by decide)
      (by decide) (by decide) (by decide) (by decide) (by decide) (by decide)⟩

end SpotifyGraph
